import Mathlib

/-!
Shallow embedding of the UNIface360 demo client-side alert / camera /
detection-poller subsystem.

Sources embedded here:
* `src/unnamed/part_000` — the demo detection pages script
  (`showAlert`, `dismissAlert`, `playBeep`, `attachCamera`, `captureFrame`,
  the per-domain pollers `initSmoking` / `initUnauthorized` /
  `initRestricted` / `initPPE` with their `playEmergencySound` /
  `sendEmailAlert` throttle gates and `performCheck` tick handlers).
* `src/static/app.js` — the dashboard script (`showAlert`, `dismissAlert`,
  `playBeep`), which differs from the demo script only in option defaults,
  the optional timestamp row, the auto-dismiss delay (4300 ms vs 4200 ms)
  and the critical beep frequency (1120 Hz vs 1150 Hz).

Wall-clock times are embedded as `Int` milliseconds (`Date.now()` values);
the source's timestamp arithmetic is exact integer arithmetic on such
values, so no overflow modelling is needed.
-/

namespace UNIface

/-! ### Alert cards: `dismissAlert` and the animation-end removal

The `dismissAlert` function is textually identical in
`src/unnamed/part_000` (lines 245-255) and `src/static/app.js`
(lines 370-382), so it is embedded once.

An alert card's DOM node is modelled by the state that `dismissAlert` and
its `animationend` listener inspect or mutate:
* `leaving` — whether the `uf-alert--leaving` class is present;
* `removalListeners` — how many once-only `animationend` removal listeners
  are currently registered on the node;
* `inDom` — whether the node still has a parent (is still in the layer).
-/

structure AlertCard where
  leaving : Bool
  removalListeners : Nat
  inDom : Bool
deriving DecidableEq, Repr

/-- A freshly created alert card as built by `showAlert`: not leaving, no
removal listener registered yet, appended to the alert layer. -/
def newCard : AlertCard := ⟨false, 0, true⟩

/-- Embeds `dismissAlert(el)`: a no-op when the card is already in the "leaving"
state; otherwise adds the `uf-alert--leaving` class and registers one
once-only `animationend` listener that will remove the node. -/
def dismissAlert (c : AlertCard) : AlertCard :=
  if c.leaving then c
  else { c with leaving := true, removalListeners := c.removalListeners + 1 }

/-- Delivery of an `animationend` event to the card: consumes one
once-only listener if any is registered; the listener body removes the
node from its parent when it still has one.  The returned flag records
whether a DOM removal actually happened on this event. -/
def animationEnd (c : AlertCard) : AlertCard × Bool :=
  match c.removalListeners with
  | 0 => (c, false)
  | n + 1 => ({ c with removalListeners := n, inDom := false }, c.inDom)

/-- The events that can reach an alert card during a page session: further
`dismissAlert` calls (manual close click or the auto-dismiss timer) and
`animationend` deliveries. -/
inductive CardEvent where
  | dismiss
  | animEnd
deriving DecidableEq, Repr

/-- Runs a sequence of events against a card, counting how many times the
card's DOM node is actually removed from its parent. -/
def runCard : AlertCard → List CardEvent → AlertCard × Nat
  | c, [] => (c, 0)
  | c, CardEvent.dismiss :: es => runCard (dismissAlert c) es
  | c, CardEvent.animEnd :: es =>
    let r := animationEnd c
    let rest := runCard r.1 es
    (rest.1, (if r.2 then 1 else 0) + rest.2)

/-! ### Alert presenter, demo pages version (`showAlert`, part_000 lines 188-243) -/

namespace Demo

/-- The options object passed to `showAlert`; each field may be absent, in
which case the destructuring default applies. -/
structure AlertOpts where
  type : Option String := none
  title : Option String := none
  message : Option String := none
  severity : Option String := none
  source : Option String := none
deriving DecidableEq

/-- The effective severity after `opts || {}` and the destructuring
default `severity = "warning"`. -/
def effSeverity (o : Option AlertOpts) : String :=
  (o.getD {}).severity.getD "warning"

/-- Embeds `playBeep(severity)` (part_000 lines 256-275): the oscillator
frequency of the synthesized sine beep.  The construction of the audio
context is wrapped in try/catch in the source; a failure is swallowed and
plays nothing, which the callers model with an `audioOk` flag. -/
def playBeep (severity : String) : Nat :=
  if severity == "critical" then 1150 else 880

/-- The alert card DOM subtree built by `showAlert`, together with the
attributes the source sets on it.  `card` is the dismissal state of the
freshly appended node. -/
structure BuiltAlert where
  criticalClass : Bool
  warningClass : Bool
  restrictedChip : Bool
  chipText : String
  title : String
  message : String
  sourceText : String
  card : AlertCard
deriving DecidableEq

/-- Builds the alert card exactly as `showAlert` does: destructure with
defaults, pick the severity class with an if / else-if, mark the type chip
for restricted/unauthorized, and render the source line. -/
def buildAlert (o : Option AlertOpts) : BuiltAlert :=
  let a := o.getD {}
  let type := a.type.getD "info"
  let title := a.title.getD "Detection"
  let message := a.message.getD "An event occurred."
  let severity := a.severity.getD "warning"
  let source := a.source.getD "frontend"
  { criticalClass := severity == "critical"
    warningClass := !(severity == "critical") && severity == "warning"
    restrictedChip := type == "restricted" || type == "unauthorized"
    chipText := type.toUpper
    title := title
    message := message
    sourceText := if source == "frontend" then "Source: demo UI" else "Source: backend"
    card := newCard }

/-- The observable outcome of one `showAlert` call: the alert layer's
child list afterwards (`none` when the `#alert-layer` element is absent),
the auto-dismiss delay scheduled with `setTimeout`, and the beep
frequency actually played (`none` when no audio context could be
constructed — that failure is swallowed). -/
structure ShowResult where
  layer : Option (List BuiltAlert)
  timer : Option Nat
  beepFreq : Option Nat
deriving DecidableEq

/-- Embeds `showAlert(opts)` for the demo pages: returns early when the alert
layer is missing; otherwise appends exactly one card, plays the beep
(best-effort) and schedules `dismissAlert` after 4200 ms. -/
def showAlert (o : Option AlertOpts) (layer : Option (List BuiltAlert))
    (audioOk : Bool) : ShowResult :=
  match layer with
  | none => ⟨none, none, none⟩
  | some l =>
    ⟨some (l ++ [buildAlert o]), some 4200,
     if audioOk then some (playBeep (effSeverity o)) else none⟩

end Demo

/-! ### Alert presenter, dashboard version (`showAlert`, app.js lines 296-368) -/

namespace Dash

/-- Options for the dashboard `showAlert`; same fields plus the optional
`timestamp`, and different defaults (`message`, `source`). -/
structure AlertOpts where
  type : Option String := none
  title : Option String := none
  message : Option String := none
  severity : Option String := none
  source : Option String := none
  timestamp : Option Int := none
deriving DecidableEq

/-- Effective severity after defaulting, as in the demo version. -/
def effSeverity (o : Option AlertOpts) : String :=
  (o.getD {}).severity.getD "warning"

/-- Embeds `playBeep(severity)` (app.js lines 390-414): 1120 Hz for critical,
880 Hz otherwise. -/
def playBeep (severity : String) : Nat :=
  if severity == "critical" then 1120 else 880

/-- The dashboard alert card; `tsShown` records whether the truthy
`timestamp` branch added the time-of-day span to the meta row. -/
structure BuiltAlert where
  criticalClass : Bool
  warningClass : Bool
  restrictedChip : Bool
  chipText : String
  title : String
  message : String
  sourceText : String
  tsShown : Bool
  card : AlertCard
deriving DecidableEq

/-- Builds the dashboard alert card as `showAlert` in app.js does. -/
def buildAlert (o : Option AlertOpts) : BuiltAlert :=
  let a := o.getD {}
  let type := a.type.getD "info"
  let title := a.title.getD "Detection"
  let message := a.message.getD "A new detection event has occurred."
  let severity := a.severity.getD "warning"
  let source := a.source.getD "backend"
  { criticalClass := severity == "critical"
    warningClass := !(severity == "critical") && severity == "warning"
    restrictedChip := type == "restricted" || type == "unauthorized"
    chipText := type.toUpper
    title := title
    message := message
    sourceText := if source == "frontend" then "Source: demo UI" else "Source: backend"
    tsShown := a.timestamp.getD 0 != 0
    card := newCard }

/-- Outcome of one dashboard `showAlert` call. -/
structure ShowResult where
  layer : Option (List BuiltAlert)
  timer : Option Nat
  beepFreq : Option Nat
deriving DecidableEq

/-- Embeds `showAlert(options)` for the dashboard: returns early when
`els.alertLayer` is missing; otherwise appends one card, beeps and
schedules `dismissAlert` after 4300 ms. -/
def showAlert (o : Option AlertOpts) (layer : Option (List BuiltAlert))
    (audioOk : Bool) : ShowResult :=
  match layer with
  | none => ⟨none, none, none⟩
  | some l =>
    ⟨some (l ++ [buildAlert o]), some 4300,
     if audioOk then some (playBeep (effSeverity o)) else none⟩

end Dash

/-! ### Throttle gates

Each detection page (`initSmoking`, `initUnauthorized`, `initRestricted`,
`initPPE` in part_000) owns one audio gate
(`lastEmergencySoundTime` / `EMERGENCY_SOUND_COOLDOWN = 30000`) and one
email gate (`lastEmailAlertTime` / `EMAIL_ALERT_COOLDOWN = 60000`) as
closure-local variables.  A gate step takes the stored `last` timestamp
and the current `Date.now()` value and returns the new stored timestamp
together with whether the side effect fired on this call.
-/

/-- Embeds `playEmergencySound()` (identical in all four page initialisers,
e.g. part_000 lines 548-573): fires when at least 30000 ms have elapsed
since its own last fire.  `ok` models the try block around the `Audio`
element: when constructing/starting playback throws synchronously the
exception is swallowed and `lastEmergencySoundTime` is not updated. -/
def playEmergencySound (ok : Bool) (last now : Int) : Int × Bool :=
  if 30000 ≤ now - last then
    if ok then (now, true) else (last, false)
  else (last, false)

/-- Embeds `sendEmailAlert(...)` for the unauthorized / smoking / ppe pages
(e.g. part_000 lines 575-600): when at least 60000 ms have elapsed since
the last successful send it issues the POST (the fired flag); the stored
timestamp is updated only when the response has `ok` set — a failed or
rejected request leaves it unchanged. -/
def sendEmailAlert (ok : Bool) (last now : Int) : Int × Bool :=
  if 60000 ≤ now - last then
    ((if ok then now else last), true)
  else (last, false)

/-- Outcome of the restricted page's email POST, as its `sendEmailAlert`
distinguishes them: `ok` response; `ok: false` with `reason: "throttled"`;
`ok: false` with any other reason; a thrown error carrying a 429 status;
any other thrown error.  (With the `postJson` in this file the thrown
`Error` never carries a `status` field, so the `err429` branch is
unreachable in practice, but the branch is in the source.) -/
inductive EmailResult where
  | ok
  | throttled
  | failed
  | err429
  | errOther
deriving DecidableEq, Repr

/-- Embeds `sendEmailAlert()` of the restricted page (part_000 lines 1020-1057):
like the common email gate, except that when it infers a backend-side
throttle (an `ok: false` response with `reason: "throttled"`, or a thrown
error with status 429) it rewrites `lastEmailAlertTime` to
`now - (EMAIL_ALERT_COOLDOWN - 1000)`, i.e. to an almost-expired value,
instead of leaving it unchanged. -/
def sendEmailAlertRestricted (last now : Int) (r : EmailResult) : Int × Bool :=
  if 60000 ≤ now - last then
    (match r with
     | EmailResult.ok => now
     | EmailResult.throttled => now - (60000 - 1000)
     | EmailResult.failed => last
     | EmailResult.err429 => now - (60000 - 1000)
     | EmailResult.errOther => last,
     true)
  else (last, false)

/-- Iterates a gate step over the `Date.now()` values of successive
positive detection ticks of a page session, threading the stored
timestamp and counting how often the side effect fired. -/
def runGateWith (step : Int → Int → Int × Bool) : Int → List Int → Int × Nat
  | last, [] => (last, 0)
  | last, t :: ts =>
    let s := step last t
    let r := runGateWith step s.1 ts
    (r.1, (if s.2 then 1 else 0) + r.2)

/-- The audio gate over a session of positive detection ticks. -/
def runAudioGate (ok : Bool) : Int → List Int → Int × Nat :=
  runGateWith (playEmergencySound ok)

/-- The email gate over a session of positive detection ticks. -/
def runEmailGate (ok : Bool) : Int → List Int → Int × Nat :=
  runGateWith (sendEmailAlert ok)

/-! ### Detection poll ticks (`performCheck` per domain)

One `performCheck` invocation is embedded as a pure function of the gate
state, the current time and the parsed JSON response.  The response
record carries every field any of the four handlers reads; a field absent
from the actual JSON is `none` / `false` (JS `undefined` is falsy).
-/

/-- The parsed `/api/demo/{domain}/check` response vocabulary. -/
structure CheckResp where
  error : Option String := none
  unauthorized : Bool := false
  reason : Option String := none
  personName : Option String := none
  intruder : Bool := false
  violation : Bool := false
  smokeDetected : Bool := false
  fireDetected : Bool := false
deriving DecidableEq

/-- Response `{error: "camera_not_available"}`. -/
def respCameraNotAvailable : CheckResp := { error := some "camera_not_available" }

/-- Response `{error: "model_not_loaded"}`. -/
def respModelNotLoaded : CheckResp := { error := some "model_not_loaded" }

/-- The observable outcome of one `performCheck` tick: whether `showAlert`
was invoked, the text written to the page's status element, the text
written to the last-result element, and the two gate states with their
fired flags. -/
structure TickResult where
  alerted : Bool
  statusText : Option String
  lastResult : Option String
  audioLast : Int
  audioFired : Bool
  emailLast : Int
  emailFired : Bool
deriving DecidableEq

/-- A tick outcome that raised no alert and left both gates untouched. -/
def noopTickResult (a e : Int) (st lr : Option String) : TickResult :=
  { alerted := false, statusText := st, lastResult := lr,
    audioLast := a, audioFired := false, emailLast := e, emailFired := false }

/-- Embeds `performCheck` of `initUnauthorized` (part_000 lines 847-893):
`camera_not_available` only updates the status; an alert plus both
throttled side effects happen only for `unauthorized` with a reason other
than `"no_face"`; otherwise the last-result text reports the authorized
person or the no-face case. -/
def unauthorizedTick (audioOk emailOk : Bool) (aLast eLast now : Int)
    (resp : CheckResp) : TickResult :=
  if resp.error = some "camera_not_available" then
    noopTickResult aLast eLast (some "Camera not ready...") none
  else if resp.unauthorized = true ∧ resp.reason ≠ some "no_face" then
    let a := playEmergencySound audioOk aLast now
    let e := sendEmailAlert emailOk eLast now
    { alerted := true, statusText := none,
      lastResult := some "Last result: UNAUTHORIZED (unknown person).",
      audioLast := a.1, audioFired := a.2, emailLast := e.1, emailFired := e.2 }
  else if resp.unauthorized = false then
    noopTickResult aLast eLast none
      (some ("Last result: authorized as " ++ resp.personName.getD "Known person" ++ "."))
  else if resp.reason = some "no_face" then
    noopTickResult aLast eLast none (some "Last result: No face detected.")
  else
    noopTickResult aLast eLast none none

/-- Embeds `performCheck` of `initRestricted` (part_000 lines 1060-1094):
`camera_not_available` only updates the status; an alert plus both
throttled side effects happen exactly when `intruder` is set; a clear
zone does nothing. -/
def restrictedTick (audioOk : Bool) (emailResp : EmailResult)
    (aLast eLast now : Int) (resp : CheckResp) : TickResult :=
  if resp.error = some "camera_not_available" then
    noopTickResult aLast eLast (some "Camera not ready...") none
  else if resp.intruder = true then
    let a := playEmergencySound audioOk aLast now
    let e := sendEmailAlertRestricted eLast now emailResp
    { alerted := true, statusText := none, lastResult := none,
      audioLast := a.1, audioFired := a.2, emailLast := e.1, emailFired := e.2 }
  else
    noopTickResult aLast eLast none none

/-- Embeds `performCheck` of `initSmoking` (part_000 lines 603-703): both soft
errors update the status only; smoke/fire detections raise a critical
alert plus both throttled side effects.  The confidence-percentage suffix
appended to some last-result texts is floating-point string formatting
and is elided here; no claim depends on it. -/
def smokingTick (audioOk emailOk : Bool) (aLast eLast now : Int)
    (resp : CheckResp) : TickResult :=
  if resp.error = some "camera_not_available" then
    noopTickResult aLast eLast (some "Camera not ready...") none
  else if resp.error = some "model_not_loaded" then
    noopTickResult aLast eLast (some "Smoke model not loaded. Check server logs.") none
  else if resp.fireDetected = true ∧ resp.smokeDetected = true then
    let a := playEmergencySound audioOk aLast now
    let e := sendEmailAlert emailOk eLast now
    { alerted := true, statusText := some "🔥 CRITICAL: SMOKE + FIRE DETECTED!",
      lastResult := some "🔥 CRITICAL - Smoke & Fire detected!",
      audioLast := a.1, audioFired := a.2, emailLast := e.1, emailFired := e.2 }
  else if resp.fireDetected = true then
    let a := playEmergencySound audioOk aLast now
    let e := sendEmailAlert emailOk eLast now
    { alerted := true, statusText := some "🔥 FIRE DETECTED!",
      lastResult := some "🔥 FIRE detected!",
      audioLast := a.1, audioFired := a.2, emailLast := e.1, emailFired := e.2 }
  else if resp.smokeDetected = true then
    let a := playEmergencySound audioOk aLast now
    let e := sendEmailAlert emailOk eLast now
    { alerted := true, statusText := some "🚨 SMOKE DETECTED!",
      lastResult := some "🚨 SMOKE detected!",
      audioLast := a.1, audioFired := a.2, emailLast := e.1, emailFired := e.2 }
  else
    noopTickResult aLast eLast (some "✓ Monitoring - No hazards detected")
      (some "✓ All clear - No smoke or fire detected")

/-- Embeds `performCheck` of `initPPE` (part_000 lines 1246-1307): both soft
errors update the status only; a violation raises an alert plus both
throttled side effects.  The confidence suffix of the compliant
last-result text is elided as in `smokingTick`. -/
def ppeTick (audioOk emailOk : Bool) (aLast eLast now : Int)
    (resp : CheckResp) : TickResult :=
  if resp.error = some "camera_not_available" then
    noopTickResult aLast eLast (some "Camera not ready...") none
  else if resp.error = some "model_not_loaded" then
    noopTickResult aLast eLast (some "PPE model not loaded. Check server logs.") none
  else if resp.violation = true then
    let a := playEmergencySound audioOk aLast now
    let e := sendEmailAlert emailOk eLast now
    { alerted := true, statusText := some "⚠️ PPE VIOLATION DETECTED!",
      lastResult := some "⚠️ VIOLATION - No hardhat detected!",
      audioLast := a.1, audioFired := a.2, emailLast := e.1, emailFired := e.2 }
  else
    noopTickResult aLast eLast (some "✓ PPE Compliant - Hardhat detected")
      (some "✓ OK - Hardhat detected")

/-! ### Camera attacher (`attachCamera`, part_000 lines 279-419)

A display element is modelled by the data `attachCamera` reads or writes:
its tag name, its `src`, whether it still has a parent node, and whether
it is a node freshly created by `attachCamera` itself (the `img` that
replaces a `video`).  `meta` stands for the `id` / `className` /
`style.cssText` that the replacement copies from the old element.

The `try { parentNode.replaceChild(...) }` guard in the source can only
throw if the element stopped being a child of its parent between the
`parentNode` check and the call; the script is single-threaded and does
not detach the element in between, so the success path is the only
reachable one and is the one embedded.
-/

/-- The tag-name cases `attachCamera` distinguishes. -/
inductive Tag where
  | video
  | img
  | other
deriving DecidableEq, Repr

/-- A camera display element (a `video` or `img` placeholder). -/
structure Elem where
  tag : Tag
  src : String
  hasParent : Bool
  isNew : Bool
  meta : String
deriving DecidableEq

/-- The per-index MJPEG stream path `/video_feed/{camIndex}`. -/
def feedUrl (camIndex : Int) : String :=
  "/video_feed/" ++ toString camIndex

/-- The camera index used for slot `i`:
`cameraIndices[i] !== undefined ? cameraIndices[i] : (cameraIndices[0] || 0)`. -/
def camIndexAt (indices : List Int) (i : Nat) : Int :=
  match indices.get? i with
  | some v => v
  | none =>
    match indices.get? 0 with
    | some v => if v = 0 then 0 else v
    | none => 0

/-- One slot of the indexed branch of `attachCamera` (part_000 lines
285-377): a missing element and an unsupported tag get a status message; a
`video` still in the DOM is replaced by a freshly created `img` pointing
at the stream (carrying over id/class/style), a detached `video` is
skipped with a status message, and an `img` just gets its `src` updated in
place.  The returned message is the synchronous status write for the
slot, `none` when only the async load/error callbacks would write one. -/
def attachSlotIndexed (el : Option Elem) (camIndex : Int) :
    Option Elem × Option String :=
  match el with
  | none => (none, some ("Camera " ++ toString camIndex ++ " element not found"))
  | some v =>
    match v.tag with
    | Tag.video =>
      if v.hasParent then
        (some ⟨Tag.img, feedUrl camIndex, true, true, v.meta⟩, none)
      else
        (some v, some ("Camera " ++ toString camIndex ++ " element not in DOM"))
    | Tag.img =>
      (some { v with src := feedUrl camIndex }, none)
    | Tag.other =>
      (some v, some ("Camera " ++ toString camIndex ++ " unsupported element type"))

/-- One slot of the default branch of `attachCamera` (part_000 lines
378-409): only elements that exist and still have a parent are touched; a
`video` is replaced by a fresh `img` on `/video_feed/0`, an `img` gets its
`src` updated in place, anything else is left alone. -/
def attachSlotDefault (el : Option Elem) : Option Elem :=
  match el with
  | none => none
  | some v =>
    if v.hasParent then
      match v.tag with
      | Tag.video => some ⟨Tag.img, feedUrl 0, true, true, v.meta⟩
      | Tag.img => some { v with src := feedUrl 0 }
      | Tag.other => some v
    else some v

/-- Embeds `attachCamera(videoEls, statusEls, cameraIndices)`: with a non-empty
index list each slot is processed by `attachSlotIndexed`; otherwise every
slot is bound to default camera 0 and every status element is set to the
shared live text.  The returned status strings are the synchronous final
texts per slot (the indexed branch leaves "Connecting to camera…" in
place when the slot produced no error message). -/
def attachCamera (els : List (Option Elem)) (indices : Option (List Int)) :
    List (Option Elem) × List String :=
  match indices with
  | some (c :: rest) =>
    let slots := (List.range els.length).map fun i =>
      attachSlotIndexed (els.getD i none) (camIndexAt (c :: rest) i)
    (slots.map Prod.fst, slots.map fun s => s.2.getD "Connecting to camera…")
  | _ =>
    (els.map attachSlotDefault,
     (List.range els.length).map fun i =>
       if i = 0 then "Live (Camera 0)" else "Live (Camera 0, shared)")

/-! ### Frame capture (`captureFrame`, part_000 lines 421-459) -/

/-- A media element as `captureFrame` inspects it: the intrinsic video
dimensions, the intrinsic image dimensions and the displayed image
dimensions (0 models JS `undefined` / 0, both falsy). -/
structure MediaEl where
  tag : Tag
  videoWidth : Nat
  videoHeight : Nat
  naturalWidth : Nat
  naturalHeight : Nat
  width : Nat
  height : Nat
deriving DecidableEq

/-- The serialized canvas payload marker: `canvas.toDataURL("image/jpeg", 0.8)`. -/
def jpegPayload : String := "data:image/jpeg;0.8"

/-- Embeds `captureFrame(video)`: `none` for a missing element, for a `video`
without a stream (`videoWidth` falsy), for an unsupported tag, and when
canvas access fails (`canvasOk = false` models a throwing
`getContext` / `drawImage` / `toDataURL`).  For an `img` it prefers the
intrinsic dimensions, then the displayed dimensions, and finally falls
back to a 640×480 canvas.  On success it returns the canvas dimensions
and the compressed JPEG data-URL. -/
def captureFrame (el : Option MediaEl) (canvasOk : Bool) :
    Option (Nat × Nat × String) :=
  match el with
  | none => none
  | some v =>
    match v.tag with
    | Tag.video =>
      if v.videoWidth = 0 then none
      else if canvasOk then some (v.videoWidth, v.videoHeight, jpegPayload) else none
    | Tag.img =>
      let d : Nat × Nat :=
        if 0 < v.naturalWidth then (v.naturalWidth, v.naturalHeight)
        else if 0 < v.width then (v.width, v.height)
        else (640, 480)
      if canvasOk then some (d.1, d.2, jpegPayload) else none
    | Tag.other => none

/-! ## Theorems -/

/-! ### Throttle-gate lemmas -/

/-- With a successful side effect, the audio gate step is exactly the
cooldown comparison against its own stored timestamp. -/
lemma playEmergencySound_ok (l t : Int) :
    playEmergencySound true l t =
      if 30000 ≤ t - l then (t, true) else (l, false) := by
  simp [playEmergencySound]

/-- With an `ok` response, the email gate step is exactly the cooldown
comparison against its own stored timestamp. -/
lemma sendEmailAlert_ok (l t : Int) :
    sendEmailAlert true l t =
      if 60000 ≤ t - l then (t, true) else (l, false) := by
  simp [sendEmailAlert]

/-- A gate whose step is the standard cooldown comparison never fires on a
run of ticks that all fall short of the cooldown. -/
lemma runGateWith_no_fire (C : Int) (step : Int → Int → Int × Bool)
    (hstep : ∀ l t, step l t = if C ≤ t - l then (t, true) else (l, false))
    (last : Int) (ts : List Int) (h : ∀ t ∈ ts, t - last < C) :
    runGateWith step last ts = (last, 0) := by
  induction ts with
  | nil => rfl
  | cons t ts ih =>
    have ht : t - last < C := h t (List.mem_cons_self t ts)
    have hs : step last t = (last, false) := by
      rw [hstep]
      exact if_neg (by omega)
    simp only [runGateWith, hs]
    rw [ih (fun x hx => h x (List.mem_cons_of_mem t hx))]
    simp

/-- A gate whose step is the standard cooldown comparison fires exactly
once on a burst whose first tick is past the cooldown and whose remaining
ticks all lie within one cooldown window of that first (firing) tick. -/
lemma runGateWith_burst (C : Int) (step : Int → Int → Int × Bool)
    (hstep : ∀ l t, step l t = if C ≤ t - l then (t, true) else (l, false))
    (last t1 : Int) (ts : List Int)
    (h1 : C ≤ t1 - last) (hwin : ∀ t ∈ ts, t < t1 + C) :
    (runGateWith step last (t1 :: ts)).2 = 1 := by
  have hs : step last t1 = (t1, true) := by rw [hstep]; exact if_pos h1
  have hrest : runGateWith step t1 ts = (t1, 0) :=
    runGateWith_no_fire C step hstep t1 ts
      (fun t ht => by have := hwin t ht; omega)
  simp [runGateWith, hs, hrest]

/-! ### C1 -/

/-- C1: In a detection page session, a burst of positive detection ticks
whose first tick finds both gates past their cooldowns and whose later
ticks all lie within one audio-cooldown window of the first tick (hence
also within one email-cooldown window) makes the audio gate (30000 ms
cooldown) fire exactly once and the email gate (60000 ms cooldown) fire
exactly once; any positive tick at least the cooldown after a gate's own
last fire fires that gate again; and each gate's decision is keyed only by
the elapsed time since its own last fire, independent of the other gate's
state. -/
theorem throttle_burst_single_fire
    (lastA lastE t1 : Int) (ts : List Int)
    (hA : 30000 ≤ t1 - lastA) (hE : 60000 ≤ t1 - lastE)
    (hwin : ∀ t ∈ ts, t < t1 + 30000) :
    (runAudioGate true lastA (t1 :: ts)).2 = 1 ∧
    (runEmailGate true lastE (t1 :: ts)).2 = 1 ∧
    (∀ la t, (playEmergencySound true la t).2 = decide (30000 ≤ t - la)) ∧
    (∀ le t, (sendEmailAlert true le t).2 = decide (60000 ≤ t - le)) ∧
    (∀ aOk eOk a e1 e2 now resp,
      (unauthorizedTick aOk eOk a e1 now resp).audioFired =
        (unauthorizedTick aOk eOk a e2 now resp).audioFired) ∧
    (∀ aOk eOk a1 a2 e now resp,
      (unauthorizedTick aOk eOk a1 e now resp).emailFired =
        (unauthorizedTick aOk eOk a2 e now resp).emailFired) := by
  refine ⟨?_, ?_, ?_, ?_, ?_, ?_⟩
  · exact runGateWith_burst 30000 (playEmergencySound true)
      playEmergencySound_ok lastA t1 ts hA hwin
  · exact runGateWith_burst 60000 (sendEmailAlert true)
      sendEmailAlert_ok lastE t1 ts hE
      (fun t ht => by have := hwin t ht; omega)
  · intro la t
    rw [playEmergencySound_ok]
    by_cases h : 30000 ≤ t - la <;> simp [h]
  · intro le t
    rw [sendEmailAlert_ok]
    by_cases h : 60000 ≤ t - le <;> simp [h]
  · intro aOk eOk a e1 e2 now resp
    simp only [unauthorizedTick]
    split_ifs <;> rfl
  · intro aOk eOk a1 a2 e now resp
    simp only [unauthorizedTick]
    split_ifs <;> rfl

/-- Witness for C1: a burst at times 60000, 60001, 89999 against gates
last fired at 0 fires each gate exactly once. -/
theorem throttle_burst_single_fire_witness :
    (runAudioGate true 0 [60000, 60001, 89999]).2 = 1 ∧
    (runEmailGate true 0 [60000, 60001, 89999]).2 = 1 := by
  have h := throttle_burst_single_fire 0 0 60000 [60001, 89999]
    (by decide) (by decide)
    (by intro t ht; fin_cases ht <;> decide)
  exact ⟨h.1, h.2.1⟩

/-! ### C2 -/

/-- C2 (corrected): counterexample to the claim as stated.  On the
restricted page, with the email gate last fired at 0 and a positive tick
at 70000 whose send attempt comes back as backend-throttled, the stored
timestamp is rewritten to 11000 — neither left unchanged nor set to the
current time — even though no email was sent. -/
theorem restricted_email_timestamp_rewrite_cex :
    (sendEmailAlertRestricted 0 70000 EmailResult.throttled).1 = 11000 ∧
    (sendEmailAlertRestricted 0 70000 EmailResult.throttled).1 ≠ 0 ∧
    (sendEmailAlertRestricted 0 70000 EmailResult.throttled).1 ≠ 70000 := by
  decide

/-- C2 (amended): the audio gates and the unauthorized/smoking/ppe email
gates update their stored timestamp only to the current time and only on
a tick on which their own side effect fires; the restricted email gate
obeys the same discipline except that on a fire it may also rewrite the
timestamp to `now - 59000` (its backend-throttle heuristic). -/
theorem throttle_timestamp_update_discipline :
    ∀ (ok : Bool) (l n : Int) (r : EmailResult),
    ((playEmergencySound ok l n).1 = l ∨
      ((playEmergencySound ok l n).1 = n ∧ (playEmergencySound ok l n).2 = true)) ∧
    ((sendEmailAlert ok l n).1 = l ∨
      ((sendEmailAlert ok l n).1 = n ∧ (sendEmailAlert ok l n).2 = true)) ∧
    ((sendEmailAlertRestricted l n r).1 = l ∨
      ((sendEmailAlertRestricted l n r).2 = true ∧
        ((sendEmailAlertRestricted l n r).1 = n ∨
         (sendEmailAlertRestricted l n r).1 = n - 59000))) := by
  intro ok l n r
  refine ⟨?_, ?_, ?_⟩
  · unfold playEmergencySound
    split_ifs <;> simp
  · unfold sendEmailAlert
    split_ifs <;> simp
  · unfold sendEmailAlertRestricted
    split_ifs with h
    · cases r <;> simp
    · simp

/-! ### Alert-card lemmas -/

/-- A card that is leaving with no listener left absorbs every further
event without another removal. -/
lemma runCard_spent (b : Bool) (es : List CardEvent) :
    runCard ⟨true, 0, b⟩ es = (⟨true, 0, b⟩, 0) := by
  induction es with
  | nil => rfl
  | cons e es ih =>
    cases e with
    | dismiss =>
      show runCard (dismissAlert ⟨true, 0, b⟩) es = _
      rw [show dismissAlert ⟨true, 0, b⟩ = ⟨true, 0, b⟩ from rfl, ih]
    | animEnd =>
      show (_, (if (animationEnd ⟨true, 0, b⟩).2 then 1 else 0) + _) = _
      rw [show animationEnd ⟨true, 0, b⟩ = (⟨true, 0, b⟩, false) from rfl]
      simp [ih]

/-- A card that is leaving with exactly one pending once-only removal
listener is removed exactly once over any continuation: once if an
`animationend` arrives, never otherwise; the node leaves the DOM exactly
when one arrives. -/
lemma runCard_armed (es : List CardEvent) :
    runCard ⟨true, 1, true⟩ es =
      (if CardEvent.animEnd ∈ es then (⟨true, 0, false⟩, 1)
       else (⟨true, 1, true⟩, 0)) := by
  induction es with
  | nil => rfl
  | cons e es ih =>
    cases e with
    | dismiss =>
      show runCard (dismissAlert ⟨true, 1, true⟩) es = _
      rw [show dismissAlert ⟨true, 1, true⟩ = ⟨true, 1, true⟩ from rfl, ih]
      simp [List.mem_cons]
    | animEnd =>
      show (_, (if (animationEnd ⟨true, 1, true⟩).2 then 1 else 0) + _) = _
      rw [show animationEnd ⟨true, 1, true⟩ = (⟨true, 0, false⟩, true) from rfl]
      simp [runCard_spent, List.mem_cons]

/-! ### C3 -/

/-- C3: `dismissAlert` is idempotent on any card; on a fresh card the
first call marks it leaving and registers exactly one once-only removal
listener; over any further sequence of dismiss calls and animation-end
events the node is removed exactly once (on the first animation end) and
never again, and it stays out of the DOM from then on. -/
theorem dismiss_idempotent_remove_once :
    (∀ c : AlertCard, dismissAlert (dismissAlert c) = dismissAlert c) ∧
    dismissAlert newCard = ⟨true, 1, true⟩ ∧
    (∀ es : List CardEvent,
      (runCard (dismissAlert newCard) es).2 =
        (if CardEvent.animEnd ∈ es then 1 else 0)) ∧
    (∀ es : List CardEvent,
      (runCard (dismissAlert newCard) es).1.inDom =
        decide (CardEvent.animEnd ∉ es)) := by
  refine ⟨?_, rfl, ?_, ?_⟩
  · intro c
    unfold dismissAlert
    split_ifs with h <;> simp_all
  · intro es
    rw [show dismissAlert newCard = ⟨true, 1, true⟩ from rfl, runCard_armed]
    split_ifs <;> rfl
  · intro es
    rw [show dismissAlert newCard = ⟨true, 1, true⟩ from rfl, runCard_armed]
    by_cases h : CardEvent.animEnd ∈ es <;> simp [h]

/-! ### C4 -/

/-- C4: `showAlert` (demo pages) and `showAlert` (dashboard) are total on
every options object and layer state, so they never throw into their
caller: with the alert layer absent nothing is inserted and no timer is
scheduled; otherwise exactly one card is appended and an auto-dismiss
timer of 4200 ms (demo) respectively 4300 ms (dashboard) is scheduled;
the DOM outcome is the same whether or not audio is available (audio
failures are swallowed); and the appended card is fresh, so the scheduled
dismiss followed by its animation end removes the node exactly once. -/
theorem showAlert_total_single_insertion :
    ∀ (o : Option Demo.AlertOpts) (od : Option Dash.AlertOpts)
      (l : List Demo.BuiltAlert) (ld : List Dash.BuiltAlert) (audioOk : Bool),
    Demo.showAlert o none audioOk = ⟨none, none, none⟩ ∧
    Demo.showAlert o (some l) audioOk =
      ⟨some (l ++ [Demo.buildAlert o]), some 4200,
       if audioOk then some (Demo.playBeep (Demo.effSeverity o)) else none⟩ ∧
    Dash.showAlert od none audioOk = ⟨none, none, none⟩ ∧
    Dash.showAlert od (some ld) audioOk =
      ⟨some (ld ++ [Dash.buildAlert od]), some 4300,
       if audioOk then some (Dash.playBeep (Dash.effSeverity od)) else none⟩ ∧
    (Demo.showAlert o (some l) audioOk).layer =
      (Demo.showAlert o (some l) true).layer ∧
    (Dash.showAlert od (some ld) audioOk).layer =
      (Dash.showAlert od (some ld) true).layer ∧
    (Demo.buildAlert o).card = newCard ∧
    (Dash.buildAlert od).card = newCard ∧
    runCard (dismissAlert newCard) [CardEvent.animEnd] = (⟨true, 0, false⟩, 1) := by
  intro o od l ld audioOk
  exact ⟨rfl, rfl, rfl, rfl, rfl, rfl, rfl, rfl, rfl⟩

/-! ### C10 -/

/-- C10: in both `showAlert` versions the critical style class is applied
iff the effective severity is `"critical"` and the warning style class
iff it is `"warning"` (every other value, `"info"` included, gets
neither); and the beep frequency lies in 1120-1150 Hz exactly for
`"critical"` (1150 Hz on the demo pages, 1120 Hz on the dashboard) and is
880 Hz otherwise. -/
theorem severity_styling_and_beep :
    ∀ (o : Option Demo.AlertOpts) (od : Option Dash.AlertOpts) (s : String),
    ((Demo.buildAlert o).criticalClass = true ↔ Demo.effSeverity o = "critical") ∧
    ((Demo.buildAlert o).warningClass = true ↔ Demo.effSeverity o = "warning") ∧
    ((Dash.buildAlert od).criticalClass = true ↔ Dash.effSeverity od = "critical") ∧
    ((Dash.buildAlert od).warningClass = true ↔ Dash.effSeverity od = "warning") ∧
    (1120 ≤ Demo.playBeep s ∧ Demo.playBeep s ≤ 1150 ↔ s = "critical") ∧
    (Demo.playBeep s = 880 ↔ s ≠ "critical") ∧
    (1120 ≤ Dash.playBeep s ∧ Dash.playBeep s ≤ 1150 ↔ s = "critical") ∧
    (Dash.playBeep s = 880 ↔ s ≠ "critical") := by
  intro o od s
  refine ⟨?_, ?_, ?_, ?_, ?_, ?_, ?_, ?_⟩
  · simp [Demo.buildAlert, Demo.effSeverity]
  · simp only [Demo.buildAlert, Demo.effSeverity, Bool.and_eq_true,
      Bool.not_eq_true', beq_eq_false_iff_ne, ne_eq, beq_iff_eq]
    constructor
    · exact fun h => h.2
    · intro h; refine ⟨?_, h⟩; rw [h]; decide
  · simp [Dash.buildAlert, Dash.effSeverity]
  · simp only [Dash.buildAlert, Dash.effSeverity, Bool.and_eq_true,
      Bool.not_eq_true', beq_eq_false_iff_ne, ne_eq, beq_iff_eq]
    constructor
    · exact fun h => h.2
    · intro h; refine ⟨?_, h⟩; rw [h]; decide
  · unfold Demo.playBeep
    by_cases h : s = "critical" <;> simp [h]
  · unfold Demo.playBeep
    by_cases h : s = "critical" <;> simp [h]
  · unfold Dash.playBeep
    by_cases h : s = "critical" <;> simp [h]
  · unfold Dash.playBeep
    by_cases h : s = "critical" <;> simp [h]

/-! ### C5 -/

/-- C5: with `cameraIndices` null or omitted, `attachCamera` binds every
slot through `attachSlotDefault`, which points every attached video/image
element at `/video_feed/0`; and for every (element, index) pair — in the
indexed branch slot `i` is processed independently with index
`camIndexAt indices i` — an attached `video` element is replaced by a
freshly created `img` on `/video_feed/{index}` (carrying over its
id/class/style), while an element that is already an `img` only has its
`src` updated in place, all its other state (including not being a fresh
node) preserved. -/
theorem attachCamera_default_and_replace :
    ∀ (s m : String) (b hp : Bool) (c : Int)
      (els : List (Option Elem)) (idx : Int) (rest : List Int),
    attachCamera els none =
      (els.map attachSlotDefault,
       (List.range els.length).map fun i =>
         if i = 0 then "Live (Camera 0)" else "Live (Camera 0, shared)") ∧
    attachSlotDefault (some ⟨Tag.video, s, true, b, m⟩) =
      some ⟨Tag.img, feedUrl 0, true, true, m⟩ ∧
    attachSlotDefault (some ⟨Tag.img, s, true, b, m⟩) =
      some ⟨Tag.img, feedUrl 0, true, b, m⟩ ∧
    (attachCamera els (some (idx :: rest))).1 =
      (List.range els.length).map (fun i =>
        (attachSlotIndexed (els.getD i none) (camIndexAt (idx :: rest) i)).1) ∧
    attachSlotIndexed (some ⟨Tag.video, s, true, b, m⟩) c =
      (some ⟨Tag.img, feedUrl c, true, true, m⟩, none) ∧
    attachSlotIndexed (some ⟨Tag.img, s, hp, b, m⟩) c =
      (some ⟨Tag.img, feedUrl c, hp, b, m⟩, none) := by
  intro s m b hp c els idx rest
  refine ⟨rfl, rfl, rfl, ?_, rfl, rfl⟩
  simp [attachCamera]

/-! ### C6 -/

/-- C6 (corrected): counterexample to the claim as stated.  In the
default branch (`cameraIndices` omitted) a video element already detached
from the document is skipped without a throw, but its status element is
not set to an explanatory message: the unconditional status sweep writes
the generic "Live (Camera 0)" text for the skipped slot. -/
theorem attachCamera_detached_default_cex :
    attachCamera [some ⟨Tag.video, "", false, false, ""⟩] none =
      ([some ⟨Tag.video, "", false, false, ""⟩], ["Live (Camera 0)"]) := by
  rfl

/-- C6 (amended): a slot whose display element is a detached video never
throws in either branch.  In the indexed branch the replacement is
skipped, the element is left untouched, the slot's status element gets
the explanatory "element not in DOM" message, and every slot is processed
independently of the others (so the remaining slots are still attached);
in the default branch the slot is skipped untouched but its status
element receives the generic shared live text instead of an explanatory
message. -/
theorem attachCamera_detached_skip :
    ∀ (s m : String) (b : Bool) (c : Int)
      (els : List (Option Elem)) (rest : List Int),
    attachSlotIndexed (some ⟨Tag.video, s, false, b, m⟩) c =
      (some ⟨Tag.video, s, false, b, m⟩,
       some ("Camera " ++ toString c ++ " element not in DOM")) ∧
    (attachCamera els (some (c :: rest))).1 =
      (List.range els.length).map (fun i =>
        (attachSlotIndexed (els.getD i none) (camIndexAt (c :: rest) i)).1) ∧
    (attachCamera els (some (c :: rest))).2 =
      (List.range els.length).map (fun i =>
        ((attachSlotIndexed (els.getD i none) (camIndexAt (c :: rest) i)).2).getD
          "Connecting to camera…") ∧
    attachSlotDefault (some ⟨Tag.video, s, false, b, m⟩) =
      some ⟨Tag.video, s, false, b, m⟩ ∧
    (attachCamera [some ⟨Tag.video, s, false, b, m⟩] none).2 = ["Live (Camera 0)"] := by
  intro s m b c els rest
  refine ⟨rfl, ?_, ?_, rfl, rfl⟩
  · simp [attachCamera]
  · simp [attachCamera]

/-! ### C7 -/

/-- C7: `captureFrame` returns `null` — never throwing — for a missing
element, for a video element without a stream (zero `videoWidth`), for an
element that is neither a video nor an image, and whenever canvas access
fails; and for an image element whose intrinsic and displayed widths are
both zero it falls back to a 640×480 canvas and returns a non-null
compressed JPEG data-URL payload. -/
theorem captureFrame_null_and_fallback :
    ∀ (canvasOk : Bool) (v : MediaEl) (vw vh nw nh w h : Nat),
    captureFrame none canvasOk = none ∧
    captureFrame (some ⟨Tag.video, 0, vh, nw, nh, w, h⟩) canvasOk = none ∧
    captureFrame (some ⟨Tag.other, vw, vh, nw, nh, w, h⟩) canvasOk = none ∧
    captureFrame (some v) false = none ∧
    captureFrame (some ⟨Tag.img, vw, vh, 0, nh, 0, h⟩) true =
      some (640, 480, jpegPayload) := by
  intro canvasOk v vw vh nw nh w h
  refine ⟨rfl, ?_, rfl, ?_, rfl⟩
  · simp [captureFrame]
  · unfold captureFrame
    rcases v with ⟨t, vw', vh', nw', nh', w', h'⟩
    cases t <;> simp

/-! ### C8 -/

/-- C8 (corrected): counterexample to the claim as stated.  A
`{error: "model_not_loaded"}` response is not surfaced as status text in
every domain: the unauthorized poller writes no status text and instead
falls through to the authorized-person branch, reporting "authorized as
Known person", and the restricted poller surfaces nothing at all. -/
theorem soft_error_not_always_status_cex :
    (unauthorizedTick true true 0 0 0 respModelNotLoaded).statusText = none ∧
    (unauthorizedTick true true 0 0 0 respModelNotLoaded).lastResult =
      some "Last result: authorized as Known person." ∧
    (restrictedTick true EmailResult.ok 0 0 0 respModelNotLoaded).statusText = none ∧
    (restrictedTick true EmailResult.ok 0 0 0 respModelNotLoaded).lastResult = none := by
  refine ⟨rfl, rfl, rfl, rfl⟩

/-- C8 (amended): in every domain a `{error: "camera_not_available"}` or
`{error: "model_not_loaded"}` response never produces a popup alert and
never touches either throttle gate.  `camera_not_available` is surfaced
as status text in all four domains; `model_not_loaded` is surfaced as
status text only by the smoking and ppe pollers — the unauthorized poller
falls through to the authorized-person last-result text and the
restricted poller ignores it silently. -/
theorem soft_error_no_alert_no_gate :
    ∀ (aOk eOk : Bool) (r : EmailResult) (a e now : Int),
    unauthorizedTick aOk eOk a e now respCameraNotAvailable =
      noopTickResult a e (some "Camera not ready...") none ∧
    unauthorizedTick aOk eOk a e now respModelNotLoaded =
      noopTickResult a e none (some "Last result: authorized as Known person.") ∧
    restrictedTick aOk r a e now respCameraNotAvailable =
      noopTickResult a e (some "Camera not ready...") none ∧
    restrictedTick aOk r a e now respModelNotLoaded =
      noopTickResult a e none none ∧
    smokingTick aOk eOk a e now respCameraNotAvailable =
      noopTickResult a e (some "Camera not ready...") none ∧
    smokingTick aOk eOk a e now respModelNotLoaded =
      noopTickResult a e (some "Smoke model not loaded. Check server logs.") none ∧
    ppeTick aOk eOk a e now respCameraNotAvailable =
      noopTickResult a e (some "Camera not ready...") none ∧
    ppeTick aOk eOk a e now respModelNotLoaded =
      noopTickResult a e (some "PPE model not loaded. Check server logs.") none := by
  intro aOk eOk r a e now
  exact ⟨rfl, rfl, rfl, rfl, rfl, rfl, rfl, rfl⟩

/-! ### C9 -/

/-- C9: the unauthorized poller's `{unauthorized: true, reason: "no_face"}`
response produces no popup alert, takes the "no face detected"
last-result branch and leaves both throttle gates untouched; and on any
response an alert is raised exactly when `unauthorized` is set with a
reason other than `"no_face"` (and no camera_not_available error), with
both gate invocations happening exactly on that alert branch, each keyed
to its own stored timestamp. -/
theorem unauthorized_no_face_branch :
    ∀ (aOk eOk : Bool) (a e now : Int) (pn : Option String)
      (intr viol sd fd : Bool) (resp : CheckResp),
    unauthorizedTick aOk eOk a e now
        ⟨none, true, some "no_face", pn, intr, viol, sd, fd⟩ =
      noopTickResult a e none (some "Last result: No face detected.") ∧
    (unauthorizedTick aOk eOk a e now resp).alerted =
      (decide (resp.error ≠ some "camera_not_available") && resp.unauthorized &&
        decide (resp.reason ≠ some "no_face")) ∧
    (unauthorizedTick aOk eOk a e now resp).audioFired =
      ((unauthorizedTick aOk eOk a e now resp).alerted &&
        (playEmergencySound aOk a now).2) ∧
    (unauthorizedTick aOk eOk a e now resp).audioLast =
      (if (unauthorizedTick aOk eOk a e now resp).alerted = true
       then (playEmergencySound aOk a now).1 else a) ∧
    (unauthorizedTick aOk eOk a e now resp).emailFired =
      ((unauthorizedTick aOk eOk a e now resp).alerted &&
        (sendEmailAlert eOk e now).2) ∧
    (unauthorizedTick aOk eOk a e now resp).emailLast =
      (if (unauthorizedTick aOk eOk a e now resp).alerted = true
       then (sendEmailAlert eOk e now).1 else e) := by
  intro aOk eOk a e now pn intr viol sd fd resp
  refine ⟨rfl, ?_, ?_, ?_, ?_, ?_⟩ <;>
  · simp only [unauthorizedTick]
    split_ifs with h1 h2 h3 h4 <;>
      simp_all [noopTickResult, decide_eq_true_eq]

end UNIface
